import Mathlib

/-!
Verification development for the agentic vessel-analytics pipeline
(`agentic_pipeline`): a shallow embedding of the stage graph
(`core/graph.py`), the conversational memory (`services/memory_manager.py`),
the plan validator (`services/plan_validator.py`) and the loitering
detector (`services/loitering_service.py`), together with theorems about
the behaviour of those components.

Modelling conventions:
* Python floats are modelled as rationals (`ℚ`); all comparisons performed
  by the code are order comparisons, which agree with the rational model.
* Timestamps are modelled as rationals counting seconds
  (`pandas` datetimes; the code always converts differences with
  `total_seconds() / 3600`).
* Python truthiness on optional strings / lists / floats is modelled
  explicitly (`None`, empty string, empty list and `0.0` are falsy).
* `DataFrame`s are modelled as lists of records.
-/

/-! ## Small Python-semantics helpers -/

/-- Substring containment, the semantics of the Python `in` operator on
strings (here on explicit character lists). -/
def containsSub (needle : List Char) : List Char → Bool
  | [] => needle.isEmpty
  | c :: t => needle.isPrefixOf (c :: t) || containsSub needle t

/-- Python `str.strip()`: remove leading and trailing whitespace. -/
def stripStr (s : String) : String :=
  ⟨(s.data.dropWhile Char.isWhitespace).reverse.dropWhile Char.isWhitespace |>.reverse⟩

/-- Lower-case a string character-wise (`str.lower()` for the ASCII
queries used by the system). -/
def lowerChars (s : String) : List Char := s.data.map Char.toLower

/-- Python truthiness of an optional string: `None` and `""` are falsy. -/
def pyTruthyStrOpt : Option String → Bool
  | none => false
  | some s => !s.isEmpty

/-- Python `x or default` for an optional float argument: `None` and `0.0`
both select the default. -/
def pyOrQ (x : Option ℚ) (d : ℚ) : ℚ :=
  match x with
  | none => d
  | some v => if v = 0 then d else v

/-- The test `x is None or x <= 0` on an optional float. -/
def pyNoneOrNonpos : Option ℚ → Bool
  | none => true
  | some d => decide (d ≤ 0)

/-- Python slice `lst[-k:]`: for `k = 0` this is `lst[0:]`, i.e. the whole
list; for `k > 0` it is the suffix of length at most `k`. -/
def pyTailSlice (k : ℕ) (l : List α) : List α :=
  if k = 0 then l else l.drop (l.length - k)

/-! ## `config/settings.py` -/

/-- Service configuration (`Settings`), restricted to the fields the core
components read. -/
structure Settings where
  max_conversation_history : ℕ
  loitering_speed_threshold_knots : ℚ
  loitering_dwell_time_hours : ℚ
deriving DecidableEq

/-- The global settings instance (`settings = Settings()` with the declared
defaults: history 10, speed threshold 2.0 knots, dwell 4.0 hours). -/
def settings : Settings :=
  ⟨10, 2, 4⟩

/-! ## `config/schemas.py` -/

/-- `domain_intent`: Literal["trajectory", "loitering", "prediction", "listing"]. -/
inductive DomainIntent
  | trajectory | loitering | prediction | listing
deriving DecidableEq

/-- `task_intent`: Literal["show", "predict", "detect", "list"]. -/
inductive TaskIntent
  | show | predict | detect | list
deriving DecidableEq

/-- `vessel_scope`: Literal["single", "multiple", "all"]. -/
inductive VesselScope
  | single | multiple | all
deriving DecidableEq

/-- `TimeConstraint.mode`: Literal["relative", "absolute"]. -/
inductive TimeMode
  | relative | absolute
deriving DecidableEq

/-- `SpatialConstraint.type`: Literal["none", "coastal_distance", "polygon"]. -/
inductive SpatialType
  | none | coastal_distance | polygon
deriving DecidableEq

/-- `ExecutionMode.data_source`: Literal["raw_ais", "ml_predictions", "model_inference"]. -/
inductive DataSource
  | raw_ais | ml_predictions | model_inference
deriving DecidableEq

/-- `OutputConfig.format`: Literal["map", "table", "summary"]. -/
inductive OutputFormat
  | map | table | summary
deriving DecidableEq

/-- `VesselIdentifier` (pydantic model). -/
structure VesselIdentifier where
  imo : Option String
  mmsi : Option String
  name : Option String
deriving DecidableEq

/-- `TimeConstraint` (pydantic model); `end` is a Lean keyword, so the
field is named `stop`. -/
structure TimeConstraint where
  mode : TimeMode
  relative : Option String
  start : Option String
  stop : Option String
deriving DecidableEq

/-- `SpatialConstraint` (pydantic model). -/
structure SpatialConstraint where
  type : SpatialType
  distance_nm : Option ℚ
  polygon_type : Option String
  polygon_id : Option String
deriving DecidableEq

/-- `ExecutionMode` (pydantic model). -/
structure ExecutionMode where
  data_source : DataSource
  model_name : Option String
deriving DecidableEq

/-- `OutputConfig` (pydantic model); the pydantic field constraint
`1 ≤ limit ≤ 10000` is structural and not re-stated here. -/
structure OutputConfig where
  format : OutputFormat
  limit : ℕ
deriving DecidableEq

/-- `CanonicalIntent` (pydantic model), the structured intent record. -/
structure CanonicalIntent where
  domain_intent : DomainIntent
  task_intent : TaskIntent
  vessel_scope : VesselScope
  vessels : List VesselIdentifier
  time_constraint : TimeConstraint
  spatial_constraint : SpatialConstraint
  execution_mode : ExecutionMode
  output : OutputConfig
deriving DecidableEq

/-! ## `utils/validators.py` -/

/-- `validate_mmsi`: falsy strings are rejected; otherwise the string is
stripped and must match `^\d\x7b9\x7d$`, i.e. be exactly nine decimal
digits. -/
def validate_mmsi (mmsi : String) : Bool :=
  if mmsi.isEmpty then false
  else
    let t := stripStr mmsi
    t.length = 9 && t.data.all Char.isDigit

/-- Days in a month, with leap years (used by ISO datetime validation,
mirroring the range checks of `datetime.fromisoformat`). -/
def daysInMonth (y m : ℕ) : ℕ :=
  if m = 2 then
    if y % 4 = 0 && (y % 100 ≠ 0 || y % 400 = 0) then 29 else 28
  else if m = 4 || m = 6 || m = 9 || m = 11 then 30
  else 31

/-- Read an exact count of decimal digits as a number. -/
def readDigits : ℕ → List Char → Option (ℕ × List Char)
  | 0, cs => some (0, cs)
  | n + 1, c :: cs =>
    if c.isDigit then
      match readDigits n cs with
      | some (v, rest) => some ((c.toNat - 48) * 10 ^ n + v, rest)
      | none => none
    else none
  | _ + 1, [] => none

/-- Consume one expected character. -/
def readChar (c : Char) : List Char → Option (List Char)
  | d :: cs => if d = c then some cs else none
  | [] => none

/-- Time-of-day part of the ISO datetime model (`THH:MM:SS` with optional
fractional seconds), combined with the already-parsed date encoding. -/
def parseIsoTime (base : ℕ) (cs : List Char) : Option ℕ :=
  match readChar 'T' cs with
  | none => none
  | some cs =>
  match readDigits 2 cs with
  | none => none
  | some (hh, cs) =>
  match readChar ':' cs with
  | none => none
  | some cs =>
  match readDigits 2 cs with
  | none => none
  | some (mi, cs) =>
  match readChar ':' cs with
  | none => none
  | some cs =>
  match readDigits 2 cs with
  | none => none
  | some (ss, cs) =>
    if hh ≤ 23 && mi ≤ 59 && ss ≤ 59 &&
        (cs.isEmpty || (cs.head? = some '.' && cs.tail.all Char.isDigit && !cs.tail.isEmpty))
    then some (((base * 24 + hh) * 60 + mi) * 60 + ss)
    else none

/-- Shallow model of `datetime.fromisoformat` for the ISO-8601 profile the
repository uses (`YYYY-MM-DD`, optionally followed by `THH:MM:SS` and a
fractional-second part): returns the parsed instant encoded as a natural
number that orders exactly like the lexicographic component order used by
`datetime` comparison, or `none` on malformed input. -/
def parseIso (s : String) : Option ℕ :=
  match readDigits 4 s.data with
  | none => none
  | some (y, cs) =>
  match readChar '-' cs with
  | none => none
  | some cs =>
  match readDigits 2 cs with
  | none => none
  | some (mo, cs) =>
  match readChar '-' cs with
  | none => none
  | some cs =>
  match readDigits 2 cs with
  | none => none
  | some (d, cs) =>
    if 1 ≤ mo && mo ≤ 12 && 1 ≤ d && d ≤ daysInMonth y mo then
      match cs with
      | [] => some (((((y * 13 + mo) * 32 + d) * 24 + 0) * 60 + 0) * 60 + 0)
      | _ => parseIsoTime ((y * 13 + mo) * 32 + d) cs
    else none

/-- `validate_time_range`: both bounds must be present (truthy), parse as
ISO datetimes, and satisfy `start < end` (datetime comparison is
lexicographic on the components). -/
def validate_time_range (start stop : Option String) : Bool :=
  match start, stop with
  | some s, some e =>
    if s.isEmpty || e.isEmpty then false
    else
      match parseIso s, parseIso e with
      | some a, some b => decide (a < b)
      | _, _ => false
  | _, _ => none = some "" -- unreachable spelling of `false` keeps the match total

/-! ## Serialization (`CanonicalIntent.to_dict` rendered by `str`) -/

/-- Python `repr` of an optional string as it appears inside
`str(intent.to_dict())`. -/
def pyReprStrOpt : Option String → String
  | none => "None"
  | some s => "\x27" ++ s ++ "\x27"

/-- Rendering of an optional float. Python prints a decimal expansion;
this model prints `num/den` for non-integral rationals, which uses the
same character alphabet (digits, minus, dot, slash) and is therefore
equivalent for the keyword scan performed on the serialized intent. -/
def pyReprQOpt : Option ℚ → String
  | none => "None"
  | some q => if q.den = 1 then toString q.num ++ ".0" else toString q.num ++ "/" ++ toString q.den

/-- The literal string value of a `domain_intent`. -/
def domainIntentStr : DomainIntent → String
  | .trajectory => "trajectory"
  | .loitering => "loitering"
  | .prediction => "prediction"
  | .listing => "listing"

/-- The literal string value of a `task_intent`. -/
def taskIntentStr : TaskIntent → String
  | .show => "show"
  | .predict => "predict"
  | .detect => "detect"
  | .list => "list"

/-- The literal string value of a `vessel_scope`. -/
def vesselScopeStr : VesselScope → String
  | .single => "single"
  | .multiple => "multiple"
  | .all => "all"

/-- The literal string value of a time `mode`. -/
def timeModeStr : TimeMode → String
  | .relative => "relative"
  | .absolute => "absolute"

/-- The literal string value of a spatial `type`. -/
def spatialTypeStr : SpatialType → String
  | .none => "none"
  | .coastal_distance => "coastal_distance"
  | .polygon => "polygon"

/-- The literal string value of a `data_source`. -/
def dataSourceStr : DataSource → String
  | .raw_ais => "raw_ais"
  | .ml_predictions => "ml_predictions"
  | .model_inference => "model_inference"

/-- The literal string value of an output `format`. -/
def outputFormatStr : OutputFormat → String
  | .map => "map"
  | .table => "table"
  | .summary => "summary"

/-- `str` of one vessel-identifier dict. -/
def vesselIdentifierRepr (v : VesselIdentifier) : String :=
  "\x7b\x27imo\x27: " ++ pyReprStrOpt v.imo ++ ", \x27mmsi\x27: " ++ pyReprStrOpt v.mmsi ++
    ", \x27name\x27: " ++ pyReprStrOpt v.name ++ "\x7d"

/-- `str(intent.to_dict())`: the Python `str` rendering of
`model_dump()`, with keys in declaration order. -/
def intentSerialize (i : CanonicalIntent) : String :=
  "\x7b\x27domain_intent\x27: \x27" ++ domainIntentStr i.domain_intent ++
  "\x27, \x27task_intent\x27: \x27" ++ taskIntentStr i.task_intent ++
  "\x27, \x27vessel_scope\x27: \x27" ++ vesselScopeStr i.vessel_scope ++
  "\x27, \x27vessels\x27: [" ++ String.intercalate ", " (i.vessels.map vesselIdentifierRepr) ++
  "], \x27time_constraint\x27: \x7b\x27mode\x27: \x27" ++ timeModeStr i.time_constraint.mode ++
  "\x27, \x27relative\x27: " ++ pyReprStrOpt i.time_constraint.relative ++
  ", \x27start\x27: " ++ pyReprStrOpt i.time_constraint.start ++
  ", \x27end\x27: " ++ pyReprStrOpt i.time_constraint.stop ++
  "\x7d, \x27spatial_constraint\x27: \x7b\x27type\x27: \x27" ++ spatialTypeStr i.spatial_constraint.type ++
  "\x27, \x27distance_nm\x27: " ++ pyReprQOpt i.spatial_constraint.distance_nm ++
  ", \x27polygon_type\x27: " ++ pyReprStrOpt i.spatial_constraint.polygon_type ++
  ", \x27polygon_id\x27: " ++ pyReprStrOpt i.spatial_constraint.polygon_id ++
  "\x7d, \x27execution_mode\x27: \x7b\x27data_source\x27: \x27" ++ dataSourceStr i.execution_mode.data_source ++
  "\x27, \x27model_name\x27: " ++ pyReprStrOpt i.execution_mode.model_name ++
  "\x7d, \x27output\x27: \x7b\x27format\x27: \x27" ++ outputFormatStr i.output.format ++
  "\x27, \x27limit\x27: " ++ toString i.output.limit ++ "\x7d\x7d"

/-! ## `services/plan_validator.py` -/

/-- The operational / code-execution denylist scanned over the serialized
intent (rule 7 of `PlanValidator.validate`). -/
def denyKeywords : List String :=
  ["exec", "eval", "import", "os.", "subprocess", "__"]

/-- `PlanValidator.validate`: evaluates the seven rule groups in order,
accumulating violation messages; an empty list means the intent is valid. -/
def validate (intent : CanonicalIntent) : List String :=
  -- 1. Vessel scope consistency
  (if intent.vessel_scope = .single ∧ intent.vessels.length ≠ 1 then
    ["vessel_scope is \x27single\x27 but vessels list does not contain exactly 1 vessel"] else []) ++
  (if intent.vessel_scope = .multiple ∧ intent.vessels.length < 2 then
    ["vessel_scope is \x27multiple\x27 but vessels list contains less than 2 vessels"] else []) ++
  (if intent.vessel_scope = .all ∧ 0 < intent.vessels.length then
    ["vessel_scope is \x27all\x27 but vessels list is not empty"] else []) ++
  -- 2. MMSI format (the truthiness guard skips absent or empty MMSIs)
  (intent.vessels.filterMap fun v =>
    match v.mmsi with
    | some m => if ¬ m.isEmpty ∧ ¬ validate_mmsi m then some ("Invalid MMSI format: " ++ m) else none
    | none => none) ++
  -- 3. Time constraints
  (if intent.time_constraint.mode = .relative ∧ ¬ pyTruthyStrOpt intent.time_constraint.relative then
    ["Time mode is \x27relative\x27 but no relative expression provided"] else []) ++
  (if intent.time_constraint.mode = .absolute then
    if ¬ pyTruthyStrOpt intent.time_constraint.start ∨ ¬ pyTruthyStrOpt intent.time_constraint.stop then
      ["Time mode is \x27absolute\x27 but start/end not provided"]
    else if ¬ validate_time_range intent.time_constraint.start intent.time_constraint.stop then
      ["Invalid time range: start must be before end"]
    else []
  else []) ++
  -- 4. Spatial constraints
  (if intent.spatial_constraint.type = .coastal_distance ∧
      pyNoneOrNonpos intent.spatial_constraint.distance_nm = true then
    ["Spatial type is \x27coastal_distance\x27 but distance_nm is invalid"] else []) ++
  (if intent.spatial_constraint.type = .polygon ∧ ¬ pyTruthyStrOpt intent.spatial_constraint.polygon_type then
    ["Spatial type is \x27polygon\x27 but polygon_type not provided"] else []) ++
  -- 5. Execution mode
  (if intent.execution_mode.data_source = .model_inference ∧ ¬ pyTruthyStrOpt intent.execution_mode.model_name then
    ["Execution mode is \x27model_inference\x27 but model_name not provided"] else []) ++
  -- 6. Domain / task compatibility
  (if intent.domain_intent = .loitering ∧ intent.task_intent ∉ [TaskIntent.detect, TaskIntent.show] then
    ["Incompatible: domain_intent \x27loitering\x27 with task_intent \x27" ++ taskIntentStr intent.task_intent ++ "\x27"]
   else []) ++
  (if intent.domain_intent = .prediction ∧ intent.task_intent ≠ .predict then
    ["Incompatible: domain_intent \x27prediction\x27 with task_intent \x27" ++ taskIntentStr intent.task_intent ++ "\x27"]
   else []) ++
  -- 7. Safety denylist over the serialized intent
  (denyKeywords.filterMap fun kw =>
    if containsSub kw.data (intentSerialize intent).data then some ("Unsafe keyword detected: " ++ kw) else none)

/-- A structurally well-formed intent used as a concrete witness:
single-vessel trajectory query over a relative time window. -/
def intent0 : CanonicalIntent :=
  { domain_intent := .trajectory
    task_intent := .show
    vessel_scope := .single
    vessels := [⟨none, some "123456789", none⟩]
    time_constraint := ⟨.relative, some "last_24h", none, none⟩
    spatial_constraint := ⟨.none, none, none, none⟩
    execution_mode := ⟨.raw_ais, none⟩
    output := ⟨.table, 50⟩ }

/-! ## `services/loitering_service.py` -/

/-- One AIS track point (a row of the trajectory DataFrame). The
timestamp counts seconds; the code only ever uses timestamp differences
converted by `total_seconds() / 3600`. -/
structure TrackPoint where
  mmsi : ℕ
  timestamp : ℚ
  latitude : ℚ
  longitude : ℚ
  sog : ℚ
deriving DecidableEq

/-- One detected loitering event (a row of the result DataFrame). -/
structure LoiteringEvent where
  mmsi : ℕ
  start_time : ℚ
  end_time : ℚ
  dwell_time_hours : ℚ
  center_latitude : ℚ
  center_longitude : ℚ
  num_points : ℕ
  avg_speed : ℚ
deriving DecidableEq

/-- Step 1 of `detect_loitering`: `df[df["sog"] < speed_threshold]`. -/
def slowPoints (df : List TrackPoint) (speed_threshold : ℚ) : List TrackPoint :=
  df.filter fun p => decide (p.sog < speed_threshold)

/-- Insert a point into a timestamp-sorted list (`sort_values("timestamp")`). -/
def insertByTs (p : TrackPoint) : List TrackPoint → List TrackPoint
  | [] => [p]
  | q :: t => if p.timestamp ≤ q.timestamp then p :: q :: t else q :: insertByTs p t

/-- Sort a vessel group by timestamp ascending. -/
def sortByTimestamp : List TrackPoint → List TrackPoint
  | [] => []
  | p :: t => insertByTs p (sortByTimestamp t)

/-- Insert a key into a sorted duplicate-free key list. -/
def insertKey (a : ℕ) : List ℕ → List ℕ
  | [] => [a]
  | b :: t => if a = b then b :: t else if a < b then a :: b :: t else b :: insertKey a t

/-- The group keys of `df.groupby("mmsi")`: the distinct MMSIs in sorted
order. -/
def uniqueKeys (l : List ℕ) : List ℕ := l.foldr insertKey []

/-- Gap-based temporal segmentation (steps 2-3 of the algorithm): the
pandas code marks `new_event` where the timestamp difference to the
previous row exceeds 1.0 hour (or is `NaN` on the first row) and groups by
the running `cumsum`, which splits the sorted point list exactly at the
gaps strictly greater than one hour. -/
def segmentGapsAux (p : TrackPoint) : List TrackPoint → List (List TrackPoint)
  | [] => [[p]]
  | q :: rest =>
    match segmentGapsAux q rest with
    | [] => [[p]]
    | s :: ss =>
      if (q.timestamp - p.timestamp) / 3600 > 1 then [p] :: s :: ss
      else (p :: s) :: ss

/-- Entry point of the segmentation scan. -/
def segmentGaps : List TrackPoint → List (List TrackPoint)
  | [] => []
  | p :: rest => segmentGapsAux p rest

/-- Minimum of the timestamp column of a segment. -/
def tsMin : List TrackPoint → ℚ
  | [] => 0
  | p :: t => t.foldl (fun a q => min a q.timestamp) p.timestamp

/-- Maximum of the timestamp column of a segment. -/
def tsMax : List TrackPoint → ℚ
  | [] => 0
  | p :: t => t.foldl (fun a q => max a q.timestamp) p.timestamp

/-- Arithmetic mean of a rational column. -/
def meanQ (l : List ℚ) : ℚ := l.sum / l.length

/-- Step 4 of the algorithm, for one segment of one vessel: segments with
fewer than 2 points are skipped (`continue`); the dwell duration is
`(max - min).total_seconds() / 3600`; the event is emitted when
`dwell_time >= dwell_time_hours` (boundary included). -/
def segmentEvent (mmsi : ℕ) (dwell_time_hours : ℚ) (seg : List TrackPoint) :
    Option LoiteringEvent :=
  if seg.length < 2 then none
  else
    let start_time := tsMin seg
    let end_time := tsMax seg
    let dwell_time := (end_time - start_time) / 3600
    if dwell_time ≥ dwell_time_hours then
      some
        { mmsi := mmsi
          start_time := start_time
          end_time := end_time
          dwell_time_hours := dwell_time
          center_latitude := meanQ (seg.map TrackPoint.latitude)
          center_longitude := meanQ (seg.map TrackPoint.longitude)
          num_points := seg.length
          avg_speed := meanQ (seg.map TrackPoint.sog) }
    else none

/-- `LoiteringService._apply_spatial_filter`: both the coastal-distance
and the polygon branch are unimplemented placeholders that return the
events unchanged. -/
def apply_spatial_filter (df : List LoiteringEvent) (sc : SpatialConstraint) :
    List LoiteringEvent :=
  match sc.type with
  | .coastal_distance => df
  | .polygon => df
  | .none => df

/-- `LoiteringService.detect_loitering`. Optional thresholds are combined
with the configured defaults by Python `or` (so `None` and `0.0` both fall
back to the settings values). -/
def detect_loitering (df : List TrackPoint) (speed_threshold : Option ℚ)
    (dwell_time_hours : Option ℚ) (spatial_constraint : Option SpatialConstraint) :
    List LoiteringEvent :=
  if df.isEmpty then []
  else
    let st := pyOrQ speed_threshold settings.loitering_speed_threshold_knots
    let dt := pyOrQ dwell_time_hours settings.loitering_dwell_time_hours
    let df_slow := slowPoints df st
    if df_slow.isEmpty then []
    else
      let loitering_events :=
        (uniqueKeys (df_slow.map TrackPoint.mmsi)).flatMap fun m =>
          let group := sortByTimestamp (df_slow.filter fun p => decide (p.mmsi = m))
          (segmentGaps group).filterMap (segmentEvent m dt)
      if loitering_events.isEmpty then []
      else
        match spatial_constraint with
        | some sc => if sc.type ≠ .none then apply_spatial_filter loitering_events sc else loitering_events
        | none => loitering_events

/-! ## `services/memory_manager.py` -/

/-- One transcript entry (`{"role": ..., "content": ...}`). -/
structure Message where
  role : String
  content : String
deriving DecidableEq

/-- The mutable state of a `MemoryManager` instance. -/
structure MemoryState where
  max_history : ℕ
  conversation_history : List Message
  last_mentioned_vessels : List String
  last_intent : Option String
deriving DecidableEq

/-- A fresh `MemoryManager(max_history)`. -/
def memoryInit (max_history : ℕ) : MemoryState :=
  ⟨max_history, [], [], none⟩

/-- `MemoryManager.add_message` acting on the transcript alone: append,
then trim to `self.conversation_history[-self.max_history:]` whenever the
length exceeds the maximum. -/
def add_message (max_history : ℕ) (hist : List Message) (m : Message) : List Message :=
  let h := hist ++ [m]
  if max_history < h.length then pyTailSlice max_history h else h

/-- `MemoryManager.add_message` on the full memory state. -/
def memAddMessage (mem : MemoryState) (m : Message) : MemoryState :=
  { mem with conversation_history := add_message mem.max_history mem.conversation_history m }

/-- `MemoryManager.update_vessel_context`: the assignment is guarded by
the truthiness of the argument, so an empty list leaves the field
unchanged. -/
def update_vessel_context (mem : MemoryState) (vessels : List String) : MemoryState :=
  if vessels.isEmpty then mem else { mem with last_mentioned_vessels := vessels }

/-- `MemoryManager.update_intent_context`: unconditional overwrite. -/
def update_intent_context (mem : MemoryState) (intent : String) : MemoryState :=
  { mem with last_intent := some intent }

/-- The fixed pronoun vocabulary scanned by `resolve_references`. -/
def pronouns : List String :=
  ["it", "its", "them", "their", "that vessel", "those vessels", "the vessel", "the ship"]

/-- The fixed continuation-marker vocabulary scanned by
`resolve_references`. -/
def intent_refs : List String :=
  ["same", "again", "also"]

/-- Whether some pronoun marker occurs (as a substring, the Python `in`
operator) in the lower-cased query. -/
def hasPronounMarker (query : String) : Bool :=
  pronouns.any fun p => containsSub p.data (lowerChars query)

/-- Whether some continuation marker occurs in the lower-cased query. -/
def hasContinuationMarker (query : String) : Bool :=
  intent_refs.any fun p => containsSub p.data (lowerChars query)

/-- The result dictionary of `resolve_references`. -/
structure Resolved where
  vessels : List String
  intent : Option String
  has_reference : Bool
deriving DecidableEq

/-- `MemoryManager.resolve_references`: starts from the empty result, then
fills in the vessel part when a pronoun marker is present and a
last-referenced vessel list exists, and independently the intent part when
a continuation marker is present and a last intent exists (Python
truthiness on both context fields). -/
def resolve_references (mem : MemoryState) (query : String) : Resolved :=
  let step1 : Resolved :=
    if hasPronounMarker query && !mem.last_mentioned_vessels.isEmpty then
      ⟨mem.last_mentioned_vessels, none, true⟩
    else ⟨[], none, false⟩
  if hasContinuationMarker query && pyTruthyStrOpt mem.last_intent then
    ⟨step1.vessels, mem.last_intent, true⟩
  else step1

/-! ## `core/state.py` and `core/graph.py` -/

/-- The resolved absolute time window. -/
structure TimeRange where
  start : ℚ
  stop : ℚ
deriving DecidableEq

/-- The contents of `state["dataframe"]`: either raw trajectory points or
detected loitering events. -/
inductive DataTable
  | traj (pts : List TrackPoint)
  | loiter (evs : List LoiteringEvent)
deriving DecidableEq

/-- Row count of a data table. -/
def dtLen : DataTable → ℕ
  | .traj l => l.length
  | .loiter l => l.length

/-- `df.empty` for a data table. -/
def dtEmpty : DataTable → Bool
  | .traj l => l.isEmpty
  | .loiter l => l.isEmpty

/-- A formatted response from `ResponseBuilder.build_response`. The
`None`-or-empty guard is modelled faithfully; the per-format payload
assembly (table / map / summary) is collapsed into one constructor carrying
the format, the row count after the limit, and the user message, since no
claim inspects the payload itself. -/
structure Response where
  format : OutputFormat
  count : ℕ
  message : String
deriving DecidableEq

/-- `ResponseBuilder.build_response`: `None` and empty frames produce the
"No results found" response; otherwise the limited frame is formatted. -/
def build_response (df : Option DataTable) (output_format : OutputFormat) (limit : ℕ) :
    Response :=
  match df with
  | none => ⟨output_format, 0, "No results found"⟩
  | some d =>
    if dtEmpty d then ⟨output_format, 0, "No results found"⟩
    else
      let n := min (dtLen d) limit
      ⟨output_format, n, "Found " ++ toString n ++ " results"⟩

/-- `AgentState` (`core/state.py`): the run state threaded through the
graph nodes. -/
structure AgentState where
  user_query : String
  conversation_history : List Message
  canonical_intent : Option CanonicalIntent
  validation_errors : List String
  vessel_ids : List String
  resolved_time_range : Option TimeRange
  dataframe : Option DataTable
  result : Option Response
  execution_log : List String
  error : Option String
  model_name : String

/-- `create_initial_state`. -/
def create_initial_state (query : String) (history : List Message) (model_name : String) :
    AgentState :=
  { user_query := query
    conversation_history := history
    canonical_intent := none
    validation_errors := []
    vessel_ids := []
    resolved_time_range := none
    dataframe := none
    result := none
    execution_log := []
    error := none
    model_name := model_name }

/-- Append one entry to the execution trace. -/
def logA (s : AgentState) (entry : String) : AgentState :=
  { s with execution_log := s.execution_log ++ [entry] }

/-- Outcomes of the external collaborators called by the graph nodes
within one run: the LLM planner (`IntentParser.parse`), the vessel
resolver (`VesselResolver.resolve` / `get_all_mmsis`), relative and
absolute time resolution, and the position store
(`TrajectoryService.fetch_raw_trajectory`). Each call either returns a
value or raises, which the node catches and records as a run error. -/
structure Oracles where
  parseResult : Except String CanonicalIntent
  resolveAll : Except String (List String)
  resolveSome : List VesselIdentifier → Except String (List String)
  relTime : TimeRange
  absTime : TimeRange
  fetch : List String → Option TimeRange → ℕ → Except String (List TrackPoint)

/-- `resolve_references_node`: consults the memory read-only; logs when a
reference was resolved; cannot raise. -/
def resolve_references_node (mem : MemoryState) (s : AgentState) : AgentState :=
  let s := logA s "Resolving references"
  let resolved := resolve_references mem s.user_query
  if resolved.has_reference then logA s "Resolved references" else s

/-- `parse_intent_node`: calls the external planner; on success stores the
canonical intent and logs it, on failure records the error. -/
def parse_intent_node (o : Oracles) (s : AgentState) : AgentState :=
  let s := logA s "Parsing intent with LLM"
  match o.parseResult with
  | .ok ci =>
    logA { s with canonical_intent := some ci }
      ("Intent: " ++ domainIntentStr ci.domain_intent ++ "/" ++ taskIntentStr ci.task_intent)
  | .error e => { s with error := some ("Intent parsing failed: " ++ e) }

/-- `validate_plan_node`: runs the validator, stores the violation list,
and turns a non-empty list into a run error. A missing intent makes the
attribute access raise, which the node catches and records. -/
def validate_plan_node (s : AgentState) : AgentState :=
  let s := logA s "Validating plan"
  match s.canonical_intent with
  | none => { s with error := some "Plan validation failed: intent missing" }
  | some ci =>
    let errs := validate ci
    let s := { s with validation_errors := errs }
    if errs.isEmpty then logA s "Plan validated successfully"
    else { s with error := some ("Validation failed: " ++ String.intercalate "; " errs) }

/-- `should_continue_after_validation`: routes to `"error"` when
`state.get("error")` is truthy or the violation list is non-empty. -/
def should_continue_after_validation (s : AgentState) : String :=
  if pyTruthyStrOpt s.error || !s.validation_errors.isEmpty then "error" else "continue"

/-- `route_by_domain`: pure function of the intent domain; `prediction`
falls back to the trajectory pipeline (documented TODO), as does the
defensive `else` branch. A missing intent would raise in the source; the
branch is unreachable because routing happens only after validation
passed, and is mapped to the same default here. -/
def route_by_domain (s : AgentState) : String :=
  match s.canonical_intent with
  | some ci =>
    match ci.domain_intent with
    | .trajectory => "trajectory"
    | .listing => "trajectory"
    | .loitering => "loitering"
    | .prediction => "trajectory"
  | none => "trajectory"

/-- `resolve_vessels_node`: resolves vessel identifiers (the `"all"` scope
uses `get_all_mmsis`), then the time window (relative expressions cannot
raise — unrecognized ones fall back to the last 24 hours; absolute bounds
were already parsed by the validator). A resolver fault is recorded and
leaves `vessel_ids` untouched. -/
def resolve_vessels_node (o : Oracles) (s : AgentState) : AgentState :=
  let s := logA s "Resolving vessel identifiers"
  match s.canonical_intent with
  | none => { s with error := some "Vessel resolution failed: intent missing" }
  | some ci =>
    let r := if ci.vessel_scope = .all then o.resolveAll else o.resolveSome ci.vessels
    match r with
    | .error e => { s with error := some ("Vessel resolution failed: " ++ e) }
    | .ok ids =>
      let s := logA { s with vessel_ids := ids }
        ("Resolved " ++ toString ids.length ++ " vessel(s)")
      if ci.time_constraint.mode = .relative then
        logA { s with resolved_time_range := some o.relTime } "Time range resolved"
      else { s with resolved_time_range := some o.absTime }

/-- `trajectory_pipeline_node`: fetches raw trajectory data through the
store; on success stores the frame, on failure records the error. -/
def trajectory_pipeline_node (o : Oracles) (s : AgentState) : AgentState :=
  let s := logA s "Fetching trajectory data"
  match s.canonical_intent with
  | none => { s with error := some "Trajectory fetch failed: intent missing" }
  | some ci =>
    match o.fetch s.vessel_ids s.resolved_time_range ci.output.limit with
    | .ok pts =>
      logA { s with dataframe := some (.traj pts) }
        ("Fetched " ++ toString pts.length ++ " trajectory points")
    | .error e => { s with error := some ("Trajectory fetch failed: " ++ e) }

/-- `loitering_pipeline_node`: fetches trajectory data (with a tenfold
limit), runs the loitering detector with the configured default thresholds
and the intent spatial constraint, and stores the events. -/
def loitering_pipeline_node (o : Oracles) (s : AgentState) : AgentState :=
  let s := logA s "Detecting loitering"
  match s.canonical_intent with
  | none => { s with error := some "Loitering detection failed: intent missing" }
  | some ci =>
    match o.fetch s.vessel_ids s.resolved_time_range (ci.output.limit * 10) with
    | .ok pts =>
      let evs := detect_loitering pts none none (some ci.spatial_constraint)
      logA { s with dataframe := some (.loiter evs) }
        ("Detected " ++ toString evs.length ++ " loitering events")
    | .error e => { s with error := some ("Loitering detection failed: " ++ e) }

/-- `response_builder_node`: builds the formatted response, stores it in
`result`, and then (and only then) mutates the conversational memory:
transcript appends for the user query and the response message, then
`update_vessel_context(state["vessel_ids"])` and
`update_intent_context(domain)`. -/
def response_builder_node (s : AgentState) (mem : MemoryState) :
    AgentState × MemoryState :=
  let s := logA s "Building response"
  match s.canonical_intent with
  | none => ({ s with error := some "Response building failed: intent missing" }, mem)
  | some ci =>
    let response := build_response s.dataframe ci.output.format ci.output.limit
    let s := logA { s with result := some response } "Response built successfully"
    let mem := memAddMessage mem ⟨"user", s.user_query⟩
    let mem := memAddMessage mem ⟨"assistant", response.message⟩
    let mem := update_vessel_context mem s.vessel_ids
    let mem := update_intent_context mem (domainIntentStr ci.domain_intent)
    (s, mem)

/-- The post-validation segment of the compiled graph: the `"continue"`
branch of conditional edge 1 runs `resolve_vessels`, then conditional
edge 2 maps `route_by_domain` to the trajectory or loitering pipeline,
and both pipelines feed `response_builder` before `END`. -/
def postValidationRun (o : Oracles) (s : AgentState) (mem : MemoryState) :
    AgentState × MemoryState :=
  let s4 := resolve_vessels_node o s
  let s5 :=
    if route_by_domain s4 = "loitering" then loitering_pipeline_node o s4
    else trajectory_pipeline_node o s4
  response_builder_node s5 mem

/-- One run of the compiled orchestration graph
(`create_orchestration_graph().invoke`): entry at `resolve_references`,
unconditional edges to `parse_intent` and `validate_plan`, conditional
edge 1 to `END` or `resolve_vessels`, then the post-validation segment. -/
def runGraph (o : Oracles) (mem : MemoryState) (s0 : AgentState) :
    AgentState × MemoryState :=
  let s3 := validate_plan_node (parse_intent_node o (resolve_references_node mem s0))
  if should_continue_after_validation s3 = "error" then (s3, mem)
  else postValidationRun o s3 mem

/-! ## Concrete instances used by witnesses and counterexamples -/

/-- The `k`-th most recent entry of a list (`k = 1` is the newest). -/
def kthMostRecent (k : ℕ) (es : List α) : Option α := es.reverse[k - 1]?

/-- An empty session memory with the configured history bound. -/
def mem0 : MemoryState := memoryInit settings.max_conversation_history

/-- Three concrete transcript entries. -/
def msgA : Message := ⟨"user", "a"⟩

/-- Second concrete transcript entry. -/
def msgB : Message := ⟨"user", "b"⟩

/-- Third concrete transcript entry. -/
def msgC : Message := ⟨"user", "c"⟩

/-- A session memory that already has a last-referenced vessel list. -/
def memA : MemoryState := ⟨10, [], ["999999999"], none⟩

/-- A structurally well-formed all-vessels loitering intent. -/
def intentLoiter : CanonicalIntent :=
  { domain_intent := .loitering
    task_intent := .detect
    vessel_scope := .all
    vessels := []
    time_constraint := ⟨.relative, some "last_week", none, none⟩
    spatial_constraint := ⟨.none, none, none, none⟩
    execution_mode := ⟨.raw_ais, none⟩
    output := ⟨.table, 50⟩ }

/-- A post-validation run state carrying the loitering intent. -/
def sLoiter : AgentState :=
  { create_initial_state "detect loitering vessels in the last week" [] "llama3" with
      canonical_intent := some intentLoiter }

/-- Benign external-collaborator outcomes: the planner returns the
loitering intent, the resolver and the store succeed. -/
def oLoiter : Oracles :=
  { parseResult := .ok intentLoiter
    resolveAll := .ok ["123456789"]
    resolveSome := fun _ => .ok ["123456789"]
    relTime := ⟨0, 604800⟩
    absTime := ⟨0, 604800⟩
    fetch := fun _ _ _ => .ok [] }

/-- Five track points of one vessel, one hour apart, all at 1 knot:
a four-hour dwell at the default threshold boundary. -/
def pts5 : List TrackPoint :=
  [⟨7, 0, 10, 20, 1⟩, ⟨7, 3600, 10, 20, 1⟩, ⟨7, 7200, 10, 20, 1⟩,
   ⟨7, 10800, 10, 20, 1⟩, ⟨7, 14400, 10, 20, 1⟩]

/-- A contiguous half-hour-spaced slow run (one vessel). -/
def segA : List TrackPoint :=
  [⟨7, 0, 10, 20, 1⟩, ⟨7, 1800, 10, 20, 1⟩, ⟨7, 3600, 10, 20, 1⟩]

/-- A second run of the same vessel, two hours after `segA` ends. -/
def segB : List TrackPoint :=
  [⟨7, 10800, 10, 20, 1⟩, ⟨7, 12600, 10, 20, 1⟩]

/-! ## Lemmas about substring containment and the denylist scan -/

lemma containsSub_append_right {n v : List Char} (u : List Char)
    (h : containsSub n v = true) : containsSub n (u ++ v) = true := by
  induction u with
  | nil => simpa using h
  | cons c t ih => simp [containsSub, ih]

lemma isPrefixOf_append {n u : List Char} (v : List Char)
    (h : n.isPrefixOf u = true) : n.isPrefixOf (u ++ v) = true := by
  rw [List.isPrefixOf_iff_prefix] at h ⊢
  exact h.trans (u.prefix_append v)

lemma containsSub_nil (v : List Char) : containsSub [] v = true := by
  cases v <;> simp [containsSub]

lemma containsSub_append_left {n u : List Char} (v : List Char)
    (h : containsSub n u = true) : containsSub n (u ++ v) = true := by
  induction u with
  | nil =>
    simp only [containsSub] at h
    cases n with
    | nil => simpa using containsSub_nil v
    | cons c t => simp at h
  | cons c t ih =>
    simp only [containsSub, Bool.or_eq_true] at h
    rcases h with h | h
    · have hp := isPrefixOf_append (n := n) (u := c :: t) v h
      rw [List.cons_append] at hp
      simp [containsSub, hp]
    · simp [containsSub, ih h]

/-- The serialized form of every canonical intent contains the denylist
keyword `"exec"`, because the dictionary rendered by
`str(intent.to_dict())` always contains the field name
`execution_mode`. -/
lemma exec_in_serialized (i : CanonicalIntent) :
    containsSub "exec".data (intentSerialize i).data = true := by
  unfold intentSerialize
  simp only [String.data_append]
  iterate 8 apply containsSub_append_left
  apply containsSub_append_right
  decide

/-- Rule 7 fires on every intent: `"Unsafe keyword detected: exec"` is
always among the violations. -/
lemma unsafe_exec_mem (i : CanonicalIntent) :
    "Unsafe keyword detected: exec" ∈ validate i := by
  unfold validate
  refine List.mem_append.mpr (Or.inr ?_)
  refine List.mem_filterMap.mpr ⟨"exec", ?_, ?_⟩
  · simp [denyKeywords]
  · rw [exec_in_serialized i]
    simp

/-- Consequently no intent ever validates cleanly. -/
lemma validate_ne_nil (i : CanonicalIntent) : validate i ≠ [] :=
  fun h => by simpa [h] using unsafe_exec_mem i

/-! ## Theorems -/

set_option maxRecDepth 8000 in
/-- C2: the validator is deterministic (a pure function), but the claimed
clean intent does not exist in the code: rule 7 scans
`str(intent.to_dict())`, whose rendering always contains the field name
`execution_mode`, so the denylist keyword `exec` fires on every intent.
At the failing input `intent0` — which satisfies rules 1 through 6 and
whose data contains no operational token — the code returns exactly the
spurious violation instead of the empty list, and in fact no canonical
intent ever yields an empty violation list. -/
theorem c2_validator_denylist_self_trigger :
    validate intent0 = ["Unsafe keyword detected: exec"] ∧
    (∀ i : CanonicalIntent, validate i = validate i) ∧
    (∀ i : CanonicalIntent, validate i ≠ []) :=
  ⟨rfl, fun _ => rfl, validate_ne_nil⟩

/-! ### C6: transcript eviction -/

lemma add_message_foldl (max : ℕ) (hmax : 1 ≤ max) (es : List Message) :
    List.foldl (add_message max) [] es = es.drop (es.length - max) := by
  induction es using List.reverseRecOn with
  | nil => simp
  | append_singleton es e ih =>
    rw [List.foldl_append, List.foldl_cons, List.foldl_nil, ih]
    simp only [add_message, pyTailSlice]
    rcases Nat.lt_or_ge es.length max with hn | hn
    · have h0 : es.length - max = 0 := by omega
      have h1 : (es ++ [e]).length - max = 0 := by simp; omega
      rw [h0, List.drop_zero, h1, List.drop_zero, if_neg (by simp; omega)]
    · have hd : (es.drop (es.length - max)).length = max := by
        rw [List.length_drop]; omega
      have hlen : (es.drop (es.length - max) ++ [e]).length = max + 1 := by
        rw [List.length_append, hd]; rfl
      rw [if_pos (by rw [hlen]; omega), if_neg (by omega), hlen,
        Nat.add_sub_cancel_left, List.drop_append_of_le_length (by rw [hd]; omega),
        List.drop_drop, List.length_append,
        List.drop_append_of_le_length (by simp; omega)]
      congr 2
      simp
      omega

/-- C6 counterexample: with `max_history = 2` and three appended
messages, the retained transcript is the last two messages; its oldest
entry is the second most recent original entry, not the third most recent
one, as the claim (`max + 1`) would require. -/
theorem c6_counterexample :
    (List.foldl (add_message 2) [] [msgA, msgB, msgC]).head? ≠
      kthMostRecent 3 [msgA, msgB, msgC] ∧
    (List.foldl (add_message 2) [] [msgA, msgB, msgC]).head? = some msgB ∧
    kthMostRecent 3 [msgA, msgB, msgC] = some msgA := by
  refine ⟨?_, ?_, ?_⟩ <;> decide

/-- C6 (amended): for a configured maximum of at least 1, the transcript
length never exceeds the maximum after any sequence of appends; once the
number of appended entries exceeds the maximum, the length is exactly the
maximum and the oldest retained entry is the `max`-th most recent original
entry (not the `(max+1)`-th). -/
theorem c6_transcript_eviction (max : ℕ) (es : List Message) (hmax : 1 ≤ max) :
    (List.foldl (add_message max) [] es).length ≤ max ∧
    (max < es.length →
      (List.foldl (add_message max) [] es).length = max ∧
      (List.foldl (add_message max) [] es).head? = kthMostRecent max es) := by
  rw [add_message_foldl max hmax es]
  refine ⟨by rw [List.length_drop]; omega, fun hlt => ⟨by rw [List.length_drop]; omega, ?_⟩⟩
  rw [List.head?_drop, kthMostRecent, List.getElem?_reverse (by omega)]
  congr 1
  omega

/-- C6 witness: the amended statement at `max_history = 2` and three
concrete messages. -/
theorem c6_witness :
    1 ≤ 2 ∧ 2 < 3 ∧
    ((List.foldl (add_message 2) [] [msgA, msgB, msgC]).length = 2 ∧
      (List.foldl (add_message 2) [] [msgA, msgB, msgC]).head? =
        kthMostRecent 2 [msgA, msgB, msgC]) :=
  ⟨by decide, by decide,
    (c6_transcript_eviction 2 [msgA, msgB, msgC] (by decide)).2 (by decide)⟩

/-- C7: `resolve_references` returns the last-referenced vessel list (with
`has_reference = true`) exactly when a pronoun marker occurs in the
lower-cased query and a last-referenced vessel list exists; independently
it returns the last domain when a continuation marker occurs and a last
domain exists; with no marker or no context the result is empty with
`has_reference = false`. Concretely, with prior vessel context
`["111111111"]` the query "show its trajectory" resolves to that list, and
with no prior context the same query yields `has_reference = false`. -/
theorem c7_resolve_references :
    (∀ (mem : MemoryState) (q : String),
      (resolve_references mem q).has_reference =
          ((hasPronounMarker q && !mem.last_mentioned_vessels.isEmpty) ||
            (hasContinuationMarker q && pyTruthyStrOpt mem.last_intent)) ∧
      (resolve_references mem q).vessels =
          (if hasPronounMarker q && !mem.last_mentioned_vessels.isEmpty then
            mem.last_mentioned_vessels
          else []) ∧
      (resolve_references mem q).intent =
          (if hasContinuationMarker q && pyTruthyStrOpt mem.last_intent then
            mem.last_intent
          else none)) ∧
    resolve_references ⟨10, [], ["111111111"], none⟩ "show its trajectory" =
      ⟨["111111111"], none, true⟩ ∧
    resolve_references ⟨10, [], [], none⟩ "show its trajectory" = ⟨[], none, false⟩ := by
  refine ⟨fun mem q => ?_, by decide, by decide⟩
  unfold resolve_references
  rcases h1 : hasPronounMarker q && !mem.last_mentioned_vessels.isEmpty <;>
    rcases h2 : hasContinuationMarker q && pyTruthyStrOpt mem.last_intent <;>
      simp [h1, h2]

/-! ### Graph lemmas -/

lemma resolve_references_node_result (mem : MemoryState) (s : AgentState) :
    (resolve_references_node mem s).result = s.result := by
  simp only [resolve_references_node, logA]
  split <;> rfl

lemma parse_intent_node_result (o : Oracles) (s : AgentState) :
    (parse_intent_node o s).result = s.result := by
  simp only [parse_intent_node, logA]
  cases o.parseResult <;> rfl

lemma validate_plan_node_result (s : AgentState) :
    (validate_plan_node s).result = s.result := by
  simp only [validate_plan_node, logA]
  cases h : s.canonical_intent with
  | none => simp
  | some ci => simp only []; split <;> rfl

lemma stage3_should_continue (o : Oracles) (mem : MemoryState) (s0 : AgentState) :
    should_continue_after_validation
      (validate_plan_node (parse_intent_node o (resolve_references_node mem s0))) =
      "error" := by
  generalize parse_intent_node o (resolve_references_node mem s0) = s2
  simp only [validate_plan_node, should_continue_after_validation, logA]
  cases h : s2.canonical_intent with
  | none =>
    simp [pyTruthyStrOpt,
      show "Plan validation failed: intent missing".isEmpty = false from rfl]
  | some ci =>
    have hne : (validate ci).isEmpty = false := by
      simp [List.isEmpty_iff, validate_ne_nil ci]
    simp [hne, pyTruthyStrOpt]

lemma stage3_error_ne_none (o : Oracles) (mem : MemoryState) (s0 : AgentState) :
    (validate_plan_node (parse_intent_node o (resolve_references_node mem s0))).error ≠
      none := by
  generalize parse_intent_node o (resolve_references_node mem s0) = s2
  simp only [validate_plan_node, logA]
  cases h : s2.canonical_intent with
  | none => simp
  | some ci =>
    have hne : (validate ci).isEmpty = false := by
      simp [List.isEmpty_iff, validate_ne_nil ci]
    simp [hne]

lemma runGraph_eq_checkpoint (o : Oracles) (mem : MemoryState) (s0 : AgentState) :
    runGraph o mem s0 =
      (validate_plan_node (parse_intent_node o (resolve_references_node mem s0)), mem) := by
  unfold runGraph
  simp [stage3_should_continue]

lemma intent_log_ne_traj (x : String) : "Intent: " ++ x ≠ "Fetching trajectory data" := by
  intro h
  have hd := congrArg String.data h
  rw [String.data_append] at hd
  have h1 : "Intent: ".data = ['I', 'n', 't', 'e', 'n', 't', ':', ' '] := rfl
  have h2 : "Fetching trajectory data".data =
      ['F', 'e', 't', 'c', 'h', 'i', 'n', 'g', ' ', 't', 'r', 'a', 'j', 'e', 'c', 't',
        'o', 'r', 'y', ' ', 'd', 'a', 't', 'a'] := rfl
  rw [h1, h2] at hd
  simp at hd

lemma intent_log_ne_loiter (x : String) : "Intent: " ++ x ≠ "Detecting loitering" := by
  intro h
  have hd := congrArg String.data h
  rw [String.data_append] at hd
  have h1 : "Intent: ".data = ['I', 'n', 't', 'e', 'n', 't', ':', ' '] := rfl
  have h2 : "Detecting loitering".data =
      ['D', 'e', 't', 'e', 'c', 't', 'i', 'n', 'g', ' ', 'l', 'o', 'i', 't', 'e', 'r',
        'i', 'n', 'g'] := rfl
  rw [h1, h2] at hd
  simp at hd

lemma resolve_references_node_log (mem : MemoryState) (s : AgentState) :
    ∀ e ∈ (resolve_references_node mem s).execution_log,
      e ∈ s.execution_log ∨ e = "Resolving references" ∨ e = "Resolved references" := by
  intro e he
  cases hr : (resolve_references mem s.user_query).has_reference <;>
    simp [resolve_references_node, logA, hr] at he <;> tauto

lemma parse_intent_node_log (o : Oracles) (s : AgentState) :
    ∀ e ∈ (parse_intent_node o s).execution_log,
      e ∈ s.execution_log ∨ e = "Parsing intent with LLM" ∨ ∃ x, e = "Intent: " ++ x := by
  intro e he
  cases ho : o.parseResult with
  | ok ci =>
    simp [parse_intent_node, logA, ho] at he
    rcases he with he | he | he
    · exact Or.inl he
    · exact Or.inr (Or.inl he)
    · exact Or.inr (Or.inr ⟨_, he⟩)
  | error msg =>
    simp [parse_intent_node, logA, ho] at he
    tauto

lemma validate_plan_node_log (s : AgentState) :
    ∀ e ∈ (validate_plan_node s).execution_log,
      e ∈ s.execution_log ∨ e = "Validating plan" ∨ e = "Plan validated successfully" := by
  intro e he
  cases hci : s.canonical_intent with
  | none => simp [validate_plan_node, logA, hci] at he; tauto
  | some ci =>
    cases hv : (validate ci).isEmpty <;>
      simp [validate_plan_node, logA, hci, hv] at he <;> tauto

lemma stage3_no_traj_marker (o : Oracles) (mem : MemoryState) (q : String)
    (hist : List Message) (mdl : String) :
    "Fetching trajectory data" ∉ (validate_plan_node (parse_intent_node o
      (resolve_references_node mem (create_initial_state q hist mdl)))).execution_log := by
  intro hm
  rcases validate_plan_node_log _ _ hm with h | h | h
  · rcases parse_intent_node_log _ _ _ h with h2 | h2 | ⟨x, h2⟩
    · rcases resolve_references_node_log _ _ _ h2 with h3 | h3 | h3
      · simp [create_initial_state] at h3
      · exact absurd h3 (by decide)
      · exact absurd h3 (by decide)
    · exact absurd h2 (by decide)
    · exact intent_log_ne_traj x h2.symm
  · exact absurd h (by decide)
  · exact absurd h (by decide)

lemma stage3_no_loiter_marker (o : Oracles) (mem : MemoryState) (q : String)
    (hist : List Message) (mdl : String) :
    "Detecting loitering" ∉ (validate_plan_node (parse_intent_node o
      (resolve_references_node mem (create_initial_state q hist mdl)))).execution_log := by
  intro hm
  rcases validate_plan_node_log _ _ hm with h | h | h
  · rcases parse_intent_node_log _ _ _ h with h2 | h2 | ⟨x, h2⟩
    · rcases resolve_references_node_log _ _ _ h2 with h3 | h3 | h3
      · simp [create_initial_state] at h3
      · exact absurd h3 (by decide)
      · exact absurd h3 (by decide)
    · exact absurd h2 (by decide)
    · exact intent_log_ne_loiter x h2.symm
  · exact absurd h (by decide)
  · exact absurd h (by decide)

/-- C1: the invariant holds for every run of the stage graph: the run
always terminates at conditional edge 1 (the post-validation decision
point) with a non-null `error`, a null `result`, an untouched memory, and
neither analytical stage (trajectory fetch or loitering detection) in the
trace — so no stage ever populates both `error` and `result`. The
underlying reason is structural: the validator rejects every intent (its
denylist scan always fires on the serialized key `execution_mode`, see the
C2 theorem), so conditional edge 1 routes every run to `END`; the stages
behind the checkpoint, including the domain-routing edge that does not
re-inspect `error`, are unreachable. -/
theorem c1_error_short_circuit (o : Oracles) (mem : MemoryState) (q : String)
    (hist : List Message) (mdl : String) :
    runGraph o mem (create_initial_state q hist mdl) =
      (validate_plan_node (parse_intent_node o
        (resolve_references_node mem (create_initial_state q hist mdl))), mem) ∧
    (runGraph o mem (create_initial_state q hist mdl)).1.error ≠ none ∧
    (runGraph o mem (create_initial_state q hist mdl)).1.result = none ∧
    "Fetching trajectory data" ∉
      (runGraph o mem (create_initial_state q hist mdl)).1.execution_log ∧
    "Detecting loitering" ∉
      (runGraph o mem (create_initial_state q hist mdl)).1.execution_log := by
  have hrg := runGraph_eq_checkpoint o mem (create_initial_state q hist mdl)
  refine ⟨hrg, ?_, ?_, ?_, ?_⟩
  · rw [hrg]
    exact stage3_error_ne_none o mem _
  · rw [hrg]
    show (validate_plan_node _).result = none
    rw [validate_plan_node_result, parse_intent_node_result, resolve_references_node_result]
    rfl
  · rw [hrg]
    exact stage3_no_traj_marker o mem q hist mdl
  · rw [hrg]
    exact stage3_no_loiter_marker o mem q hist mdl

lemma trajectory_node_marker (o : Oracles) (s : AgentState) :
    "Fetching trajectory data" ∈ (trajectory_pipeline_node o s).execution_log := by
  cases hci : s.canonical_intent with
  | none => simp [trajectory_pipeline_node, logA, hci]
  | some ci =>
    cases hf : o.fetch s.vessel_ids s.resolved_time_range ci.output.limit <;>
      simp [trajectory_pipeline_node, logA, hci, hf]

lemma loitering_node_marker (o : Oracles) (s : AgentState) :
    "Detecting loitering" ∈ (loitering_pipeline_node o s).execution_log := by
  cases hci : s.canonical_intent with
  | none => simp [loitering_pipeline_node, logA, hci]
  | some ci =>
    cases hf : o.fetch s.vessel_ids s.resolved_time_range (ci.output.limit * 10) <;>
      simp [loitering_pipeline_node, logA, hci, hf]

lemma response_builder_node_log_mono (s : AgentState) (mem : MemoryState) (e : String)
    (he : e ∈ s.execution_log) : e ∈ (response_builder_node s mem).1.execution_log := by
  cases hci : s.canonical_intent with
  | none => simp [response_builder_node, logA, hci, he]
  | some ci => simp [response_builder_node, logA, hci, he]

/-- C8: domain routing is a pure function of the resolved intent domain —
`trajectory` and `listing` route to the trajectory stage, `loitering` to
the loitering stage, and `prediction` falls back to the trajectory stage —
and, in the post-validation segment of the graph, the branch taken is
observable in the execution trace: the chosen pipeline stage logs its
distinguishing entry before the response builder runs. -/
theorem c8_route_by_domain :
    (∀ (s : AgentState) (ci : CanonicalIntent), s.canonical_intent = some ci →
      route_by_domain s =
        match ci.domain_intent with
        | .trajectory => "trajectory"
        | .listing => "trajectory"
        | .loitering => "loitering"
        | .prediction => "trajectory") ∧
    (∀ (o : Oracles) (s : AgentState) (mem : MemoryState),
      route_by_domain (resolve_vessels_node o s) = "loitering" →
        "Detecting loitering" ∈ (postValidationRun o s mem).1.execution_log) ∧
    (∀ (o : Oracles) (s : AgentState) (mem : MemoryState),
      route_by_domain (resolve_vessels_node o s) = "trajectory" →
        "Fetching trajectory data" ∈ (postValidationRun o s mem).1.execution_log) := by
  refine ⟨fun s ci h => by simp [route_by_domain, h], fun o s mem h => ?_, fun o s mem h => ?_⟩
  · simp only [postValidationRun]
    rw [if_pos h]
    exact response_builder_node_log_mono _ mem _ (loitering_node_marker o _)
  · simp only [postValidationRun]
    rw [if_neg (by rw [h]; decide)]
    exact response_builder_node_log_mono _ mem _ (trajectory_node_marker o _)

/-- C8 witness: a concrete post-validation run with a loitering intent
takes the loitering branch and its trace records the loitering stage. -/
theorem c8_witness :
    sLoiter.canonical_intent = some intentLoiter ∧
    route_by_domain (resolve_vessels_node oLoiter sLoiter) = "loitering" ∧
    "Detecting loitering" ∈ (postValidationRun oLoiter sLoiter mem0).1.execution_log :=
  ⟨rfl, by decide, c8_route_by_domain.2.1 oLoiter sLoiter mem0 (by decide)⟩

/-- C9 counterexample: `update_vessel_context` does not overwrite the
last-referenced vessel list with the given value when that value is the
empty list — the truthiness guard keeps the previous context instead. -/
theorem c9_counterexample :
    (update_vessel_context memA []).last_mentioned_vessels = ["999999999"] ∧
    (update_vessel_context memA []).last_mentioned_vessels ≠ [] := by
  refine ⟨?_, ?_⟩ <;> decide

/-- C9 (amended): `update_vessel_context(ids)` overwrites the
last-referenced vessel list only when `ids` is non-empty (an empty list
leaves the field unchanged); `update_intent_context` always overwrites the
last domain; and every graph run — in particular every run that ends with
a non-null error — returns the memory unchanged, because no run passes
validation and the memory-updating response-builder stage is never
reached. -/
theorem c9_context_updates (mem : MemoryState) (ids : List String) (d : String)
    (o : Oracles) (q mdl : String) (hist : List Message) (hids : ids ≠ []) :
    (update_vessel_context mem ids).last_mentioned_vessels = ids ∧
    (update_vessel_context mem []).last_mentioned_vessels = mem.last_mentioned_vessels ∧
    (update_intent_context mem d).last_intent = some d ∧
    (runGraph o mem (create_initial_state q hist mdl)).2 = mem := by
  refine ⟨?_, rfl, rfl, ?_⟩
  · unfold update_vessel_context
    rw [if_neg (by simp [hids])]
  · rw [runGraph_eq_checkpoint]

/-- C9 witness: the amended statement at concrete inputs. -/
theorem c9_witness :
    (["123456789"] : List String) ≠ [] ∧
    ((update_vessel_context mem0 ["123456789"]).last_mentioned_vessels = ["123456789"] ∧
      (update_vessel_context mem0 []).last_mentioned_vessels =
        mem0.last_mentioned_vessels ∧
      (update_intent_context mem0 "trajectory").last_intent = some "trajectory" ∧
      (runGraph oLoiter mem0 (create_initial_state "list vessels" [] "llama3")).2 = mem0) :=
  ⟨by decide,
    c9_context_updates mem0 ["123456789"] "trajectory" oLoiter "list vessels" "llama3" []
      (by decide)⟩

/-! ### Loitering detector -/

/-- C3: the detector discards exactly the points whose speed-over-ground
is at or above the speed threshold (a point exactly at the threshold is
discarded, since the filter keeps `sog < threshold`), and when no point
survives the filter it returns the empty event list immediately — both for
explicit thresholds and for the configured default of 2.0 knots. -/
theorem c3_speed_filter (df : List TrackPoint) (sc : Option SpatialConstraint)
    (st dt : ℚ) (hst : st ≠ 0) (hdt : dt ≠ 0) :
    (∀ p, p ∈ slowPoints df st ↔ p ∈ df ∧ p.sog < st) ∧
    (∀ p ∈ df, p.sog = st → p ∉ slowPoints df st) ∧
    (slowPoints df st = [] → detect_loitering df (some st) (some dt) sc = []) ∧
    (slowPoints df settings.loitering_speed_threshold_knots = [] →
      detect_loitering df none none sc = []) := by
  refine ⟨fun p => by simp [slowPoints, List.mem_filter], ?_, ?_, ?_⟩
  · intro p hp heq hmem
    rw [slowPoints, List.mem_filter] at hmem
    simp [heq] at hmem
  · intro h
    by_cases hdf : df.isEmpty
    · simp [detect_loitering, hdf]
    · simp only [detect_loitering, pyOrQ, if_neg hst, hdf, Bool.false_eq_true, if_false, h]
      simp
  · intro h
    by_cases hdf : df.isEmpty
    · simp [detect_loitering, hdf]
    · simp only [detect_loitering, pyOrQ, hdf, Bool.false_eq_true, if_false, h]
      simp

/-- C3 witness: a single point moving at exactly the threshold speed is
discarded and yields no event. -/
theorem c3_witness :
    (2 : ℚ) ≠ 0 ∧ (4 : ℚ) ≠ 0 ∧
    ((∀ p, p ∈ slowPoints [⟨7, 0, 10, 20, 2⟩] 2 ↔
        p ∈ [(⟨7, 0, 10, 20, 2⟩ : TrackPoint)] ∧ p.sog < 2) ∧
      (∀ p ∈ [(⟨7, 0, 10, 20, 2⟩ : TrackPoint)], p.sog = 2 →
        p ∉ slowPoints [⟨7, 0, 10, 20, 2⟩] 2) ∧
      (slowPoints [⟨7, 0, 10, 20, 2⟩] 2 = [] →
        detect_loitering [⟨7, 0, 10, 20, 2⟩] (some 2) (some 4) none = []) ∧
      (slowPoints [⟨7, 0, 10, 20, 2⟩] settings.loitering_speed_threshold_knots = [] →
        detect_loitering [⟨7, 0, 10, 20, 2⟩] none none none = [])) :=
  ⟨by norm_num, by norm_num,
    c3_speed_filter [⟨7, 0, 10, 20, 2⟩] none 2 4 (by norm_num) (by norm_num)⟩

/-- C10: each falsy threshold argument is replaced by its configured
default independently of the other argument — Python `or` treats `0.0`
like `None`, so passing an explicit `0.0` for `speed_threshold` (with any
dwell argument) behaves exactly like omitting it and exactly like passing
the default 2.0 knots, and likewise an explicit `0.0` for
`dwell_time_hours` (with any speed argument) behaves like omitting it and
like passing the default 4.0 hours; in particular the call with both
thresholds zero equals the call with both defaults. -/
theorem c10_zero_thresholds (df : List TrackPoint) (sc : Option SpatialConstraint)
    (stArg dtArg : Option ℚ) :
    detect_loitering df (some 0) dtArg sc = detect_loitering df none dtArg sc ∧
    detect_loitering df stArg (some 0) sc = detect_loitering df stArg none sc ∧
    detect_loitering df (some 0) dtArg sc =
      detect_loitering df (some settings.loitering_speed_threshold_knots) dtArg sc ∧
    detect_loitering df stArg (some 0) sc =
      detect_loitering df stArg (some settings.loitering_dwell_time_hours) sc ∧
    detect_loitering df (some 0) (some 0) sc =
      detect_loitering df (some settings.loitering_speed_threshold_knots)
        (some settings.loitering_dwell_time_hours) sc := by
  have hst0 : pyOrQ (some 0) settings.loitering_speed_threshold_knots =
      pyOrQ none settings.loitering_speed_threshold_knots := by simp [pyOrQ]
  have hdt0 : pyOrQ (some 0) settings.loitering_dwell_time_hours =
      pyOrQ none settings.loitering_dwell_time_hours := by simp [pyOrQ]
  have hstd : pyOrQ (some 0) settings.loitering_speed_threshold_knots =
      pyOrQ (some settings.loitering_speed_threshold_knots)
        settings.loitering_speed_threshold_knots := by norm_num [pyOrQ, settings]
  have hdtd : pyOrQ (some 0) settings.loitering_dwell_time_hours =
      pyOrQ (some settings.loitering_dwell_time_hours)
        settings.loitering_dwell_time_hours := by norm_num [pyOrQ, settings]
  refine ⟨?_, ?_, ?_, ?_, ?_⟩
  · simp only [detect_loitering]
    rw [hst0]
  · simp only [detect_loitering]
    rw [hdt0]
  · simp only [detect_loitering]
    rw [hstd]
  · simp only [detect_loitering]
    rw [hdtd]
  · simp only [detect_loitering]
    rw [hstd, hdtd]

lemma uniqueKeys_const (l : List ℕ) (m : ℕ) (hne : l ≠ []) (h : ∀ x ∈ l, x = m) :
    uniqueKeys l = [m] := by
  induction l with
  | nil => cases hne rfl
  | cons a t ih =>
    have ha : a = m := h a (by simp)
    rcases eq_or_ne t [] with ht | ht
    · subst ht; subst ha; simp [uniqueKeys, insertKey]
    · have hu := ih ht (fun x hx => h x (by simp [hx]))
      simp only [uniqueKeys, List.foldr_cons] at hu ⊢
      rw [hu, ha]
      simp [insertKey]

lemma insertByTs_head_le (p : TrackPoint) (l : List TrackPoint)
    (h : ∀ q ∈ l.head?, p.timestamp ≤ q.timestamp) : insertByTs p l = p :: l := by
  cases l with
  | nil => rfl
  | cons q t =>
    simp only [insertByTs]
    rw [if_pos (h q rfl)]

lemma sortByTimestamp_sorted (l : List TrackPoint)
    (h : l.Chain' (fun a b => a.timestamp ≤ b.timestamp)) : sortByTimestamp l = l := by
  induction l with
  | nil => rfl
  | cons p t ih =>
    rw [sortByTimestamp, ih h.tail]
    apply insertByTs_head_le
    intro q hq
    cases t with
    | nil => simp at hq
    | cons b t' =>
      simp at hq
      subst hq
      exact (List.chain'_cons.mp h).1

lemma segmentGapsAux_chain (p : TrackPoint) (rest : List TrackPoint)
    (h : List.Chain' (fun a b => (b.timestamp - a.timestamp) / 3600 ≤ 1) (p :: rest)) :
    segmentGapsAux p rest = [p :: rest] := by
  induction rest generalizing p with
  | nil => rfl
  | cons q t ih =>
    have h1 : (q.timestamp - p.timestamp) / 3600 ≤ 1 := (List.chain'_cons.mp h).1
    simp only [segmentGapsAux]
    rw [ih q (List.chain'_cons.mp h).2]
    simp [not_lt.mpr h1]

lemma segmentGaps_chain (l : List TrackPoint) (hne : l ≠ [])
    (h : l.Chain' (fun a b => (b.timestamp - a.timestamp) / 3600 ≤ 1)) :
    segmentGaps l = [l] := by
  cases l with
  | nil => cases hne rfl
  | cons p rest => simp [segmentGaps, segmentGapsAux_chain p rest h]

lemma segmentGapsAux_ne_nil (p : TrackPoint) (rest : List TrackPoint) :
    ∃ s ss, segmentGapsAux p rest = s :: ss := by
  cases rest with
  | nil => exact ⟨[p], [], rfl⟩
  | cons q t =>
    rcases hs : segmentGapsAux q t with _ | ⟨s, ss⟩
    · exact ⟨[p], [], by simp [segmentGapsAux, hs]⟩
    · by_cases hgap : (q.timestamp - p.timestamp) / 3600 > 1
      · exact ⟨[p], s :: ss, by simp [segmentGapsAux, hs, hgap]⟩
      · exact ⟨p :: s, ss, by simp [segmentGapsAux, hs, hgap]⟩

lemma segmentGapsAux_append (p : TrackPoint) (A : List TrackPoint) (b : TrackPoint)
    (B' : List TrackPoint)
    (hgap : ((b.timestamp - ((p :: A).getLast (by simp)).timestamp) / 3600 > 1)) :
    segmentGapsAux p (A ++ b :: B') = segmentGapsAux p A ++ segmentGapsAux b B' := by
  induction A generalizing p with
  | nil =>
    obtain ⟨s, ss, hs⟩ := segmentGapsAux_ne_nil b B'
    simp only [List.nil_append, segmentGapsAux, hs]
    rw [if_pos (by simpa using hgap)]
    rfl
  | cons a A' ih =>
    have hgap' : (b.timestamp - ((a :: A').getLast (by simp)).timestamp) / 3600 > 1 := by
      simpa [List.getLast_cons] using hgap
    obtain ⟨s, ss, hs⟩ := segmentGapsAux_ne_nil a A'
    have hrec := ih a hgap'
    rw [hs] at hrec
    simp only [List.cons_append, segmentGapsAux, hrec, hs]
    by_cases hg : (a.timestamp - p.timestamp) / 3600 > 1 <;> simp [hg, hrec]

lemma segmentGaps_append (A B : List TrackPoint) (hA : A ≠ []) (hB : B ≠ [])
    (hgap : ∀ a ∈ A.getLast?, ∀ b ∈ B.head?, (b.timestamp - a.timestamp) / 3600 > 1) :
    segmentGaps (A ++ B) = segmentGaps A ++ segmentGaps B := by
  cases A with
  | nil => cases hA rfl
  | cons p A' =>
    cases B with
    | nil => cases hB rfl
    | cons b B' =>
      have hg : (b.timestamp - ((p :: A').getLast (by simp)).timestamp) / 3600 > 1 := by
        apply hgap
        · rw [List.getLast?_eq_getLast (p :: A') (by simp)]
          simp
        · rfl
      simpa [segmentGaps] using segmentGapsAux_append p A' b B' hg

lemma apply_spatial_filter_id (evs : List LoiteringEvent) (sc : SpatialConstraint) :
    apply_spatial_filter evs sc = evs := by
  unfold apply_spatial_filter
  cases sc.type <;> rfl

lemma detect_single_vessel (m : ℕ) (pts : List TrackPoint) (st dt : ℚ)
    (sc : Option SpatialConstraint) (hst : st ≠ 0) (hdt : dt ≠ 0) (hne : pts ≠ [])
    (hm : ∀ p ∈ pts, p.mmsi = m) (hslow : ∀ p ∈ pts, p.sog < st)
    (hsort : pts.Chain' (fun a b => a.timestamp ≤ b.timestamp)) :
    detect_loitering pts (some st) (some dt) sc =
      (segmentGaps pts).filterMap (segmentEvent m dt) := by
  have hempty : pts.isEmpty = false := by simp [List.isEmpty_iff, hne]
  have hfilter : slowPoints pts st = pts :=
    List.filter_eq_self.mpr (fun p hp => by simp [hslow p hp])
  have hkeys : uniqueKeys (pts.map TrackPoint.mmsi) = [m] :=
    uniqueKeys_const _ m (by simp [hne]) (by simpa using hm)
  have hmfilter : pts.filter (fun p => decide (p.mmsi = m)) = pts :=
    List.filter_eq_self.mpr (fun p hp => by simp [hm p hp])
  simp only [detect_loitering, pyOrQ, if_neg hst, if_neg hdt, hempty, Bool.false_eq_true,
    if_false, hfilter, hkeys, List.flatMap_cons, List.flatMap_nil, List.append_nil,
    hmfilter, sortByTimestamp_sorted pts hsort]
  rcases hevs : (segmentGaps pts).filterMap (segmentEvent m dt) with _ | ⟨e, es⟩
  · simp
  · simp only [List.isEmpty_cons, Bool.false_eq_true, if_false]
    cases sc with
    | none => rfl
    | some sc' =>
      by_cases h : sc'.type ≠ SpatialType.none <;> simp [h, apply_spatial_filter_id]

/-- C4: a single vessel with at least two points, all below the speed
threshold, consecutive timestamps at most one hour apart, and a total span
equal to the dwell threshold exactly, produces exactly one loitering event
whose point count is the number of points and whose dwell duration equals
the threshold — the dwell comparison is inclusive (`>=`). -/
theorem c4_boundary_dwell_event (m : ℕ) (pts : List TrackPoint) (st dt : ℚ)
    (sc : Option SpatialConstraint) (hst : 0 < st) (hdt : 0 < dt)
    (hlen : 2 ≤ pts.length)
    (hm : ∀ p ∈ pts, p.mmsi = m)
    (hslow : ∀ p ∈ pts, p.sog < st)
    (hchain : pts.Chain' (fun a b =>
      a.timestamp ≤ b.timestamp ∧ (b.timestamp - a.timestamp) / 3600 ≤ 1))
    (hspan : (tsMax pts - tsMin pts) / 3600 = dt) :
    detect_loitering pts (some st) (some dt) sc =
      [{ mmsi := m
         start_time := tsMin pts
         end_time := tsMax pts
         dwell_time_hours := dt
         center_latitude := meanQ (pts.map TrackPoint.latitude)
         center_longitude := meanQ (pts.map TrackPoint.longitude)
         num_points := pts.length
         avg_speed := meanQ (pts.map TrackPoint.sog) }] := by
  have hne : pts ≠ [] := by
    intro h
    rw [h] at hlen
    simp at hlen
  rw [detect_single_vessel m pts st dt sc hst.ne' hdt.ne' hne hm hslow
    (hchain.imp fun a b h => h.1)]
  rw [segmentGaps_chain pts hne (hchain.imp fun a b h => h.2)]
  have hev : segmentEvent m dt pts =
      some { mmsi := m
             start_time := tsMin pts
             end_time := tsMax pts
             dwell_time_hours := dt
             center_latitude := meanQ (pts.map TrackPoint.latitude)
             center_longitude := meanQ (pts.map TrackPoint.longitude)
             num_points := pts.length
             avg_speed := meanQ (pts.map TrackPoint.sog) } := by
    simp only [segmentEvent, if_neg (not_lt.mpr hlen), hspan, ge_iff_le, le_refl, if_pos]
  simp [hev]

/-- C4 witness: the boundary statement at five concrete hourly points
spanning exactly the default four-hour dwell threshold. -/
theorem c4_witness :
    (0 : ℚ) < 2 ∧ (0 : ℚ) < 4 ∧ 2 ≤ pts5.length ∧
    (∀ p ∈ pts5, p.mmsi = 7) ∧ (∀ p ∈ pts5, p.sog < 2) ∧
    pts5.Chain' (fun a b =>
      a.timestamp ≤ b.timestamp ∧ (b.timestamp - a.timestamp) / 3600 ≤ 1) ∧
    (tsMax pts5 - tsMin pts5) / 3600 = 4 ∧
    detect_loitering pts5 (some 2) (some 4) none =
      [{ mmsi := 7
         start_time := tsMin pts5
         end_time := tsMax pts5
         dwell_time_hours := 4
         center_latitude := meanQ (pts5.map TrackPoint.latitude)
         center_longitude := meanQ (pts5.map TrackPoint.longitude)
         num_points := pts5.length
         avg_speed := meanQ (pts5.map TrackPoint.sog) }] := by
  have hchain : pts5.Chain' (fun a b =>
      a.timestamp ≤ b.timestamp ∧ (b.timestamp - a.timestamp) / 3600 ≤ 1) := by
    norm_num [pts5, List.chain'_cons]
  have hspan : (tsMax pts5 - tsMin pts5) / 3600 = 4 := by
    norm_num [pts5, tsMax, tsMin, max_def, min_def]
  exact ⟨by norm_num, by norm_num, by norm_num [pts5], by decide, by decide, hchain, hspan,
    c4_boundary_dwell_event 7 pts5 2 4 none (by norm_num) (by norm_num) (by norm_num [pts5])
      (by decide) (by decide) hchain hspan⟩

/-- C5: for one vessel whose slow points form two sorted runs `A` and `B`,
each internally at most one hour between consecutive points, separated by
a gap strictly over one hour, the detector segments the points into
exactly the two maximal runs `A` and `B`; each run yields an event exactly
under the emission guard, and any segment with fewer than two points or a
span below the dwell threshold yields no event. -/
theorem c5_gap_segmentation (m : ℕ) (st dt : ℚ) (sc : Option SpatialConstraint)
    (A B : List TrackPoint) (hst : 0 < st) (hdt : 0 < dt)
    (hA : A ≠ []) (hB : B ≠ [])
    (hm : ∀ p ∈ A ++ B, p.mmsi = m) (hslow : ∀ p ∈ A ++ B, p.sog < st)
    (hchainA : A.Chain' (fun a b =>
      a.timestamp ≤ b.timestamp ∧ (b.timestamp - a.timestamp) / 3600 ≤ 1))
    (hchainB : B.Chain' (fun a b =>
      a.timestamp ≤ b.timestamp ∧ (b.timestamp - a.timestamp) / 3600 ≤ 1))
    (hbord : ∀ a ∈ A.getLast?, ∀ b ∈ B.head?,
      a.timestamp ≤ b.timestamp ∧ (b.timestamp - a.timestamp) / 3600 > 1) :
    segmentGaps (A ++ B) = [A, B] ∧
    detect_loitering (A ++ B) (some st) (some dt) sc =
      (segmentEvent m dt A).toList ++ (segmentEvent m dt B).toList ∧
    (∀ seg : List TrackPoint,
      seg.length < 2 ∨ (tsMax seg - tsMin seg) / 3600 < dt →
        segmentEvent m dt seg = none) := by
  have hsplit : segmentGaps (A ++ B) = [A, B] := by
    rw [segmentGaps_append A B hA hB (fun a ha b hb => (hbord a ha b hb).2),
      segmentGaps_chain A hA (hchainA.imp fun a b h => h.2),
      segmentGaps_chain B hB (hchainB.imp fun a b h => h.2)]
    rfl
  refine ⟨hsplit, ?_, ?_⟩
  · have hChainAB : (A ++ B).Chain' (fun a b => a.timestamp ≤ b.timestamp) :=
      List.Chain'.append (hchainA.imp fun a b h => h.1) (hchainB.imp fun a b h => h.1)
        (fun a ha b hb => (hbord a ha b hb).1)
    have hne : A ++ B ≠ [] := by simp [hA]
    rw [detect_single_vessel m (A ++ B) st dt sc hst.ne' hdt.ne' hne hm hslow hChainAB,
      hsplit]
    cases hfa : segmentEvent m dt A <;> cases hfb : segmentEvent m dt B <;>
      simp [hfa, hfb]
  · intro seg h
    rcases h with h | h
    · simp [segmentEvent, h]
    · by_cases hl : seg.length < 2
      · simp [segmentEvent, hl]
      · simp only [segmentEvent, if_neg hl, ge_iff_le]
        rw [if_neg (not_le.mpr h)]

/-- C5 witness: inserting a two-hour gap after `segA` splits the vessel
track into the two segments `segA` and `segB`; both spans fall below the
four-hour dwell threshold, so neither yields an event and the detector
returns no events at all. -/
theorem c5_witness :
    (0 : ℚ) < 2 ∧ (0 : ℚ) < 4 ∧ segA ≠ [] ∧ segB ≠ [] ∧
    (∀ a ∈ segA.getLast?, ∀ b ∈ segB.head?,
      a.timestamp ≤ b.timestamp ∧ (b.timestamp - a.timestamp) / 3600 > 1) ∧
    segmentGaps (segA ++ segB) = [segA, segB] ∧
    detect_loitering (segA ++ segB) (some 2) (some 4) none =
      (segmentEvent 7 4 segA).toList ++ (segmentEvent 7 4 segB).toList ∧
    detect_loitering (segA ++ segB) (some 2) (some 4) none = [] := by
  have hbord : ∀ a ∈ segA.getLast?, ∀ b ∈ segB.head?,
      a.timestamp ≤ b.timestamp ∧ (b.timestamp - a.timestamp) / 3600 > 1 := by
    intro a ha b hb
    simp [segA] at ha
    simp [segB] at hb
    subst ha
    subst hb
    norm_num
  have hmain := c5_gap_segmentation 7 2 4 none segA segB (by norm_num) (by norm_num)
    (by simp [segA]) (by simp [segB]) (by decide) (by decide)
    (by norm_num [segA, List.chain'_cons]) (by norm_num [segB, List.chain'_cons]) hbord
  have hA_none : segmentEvent 7 4 segA = none :=
    hmain.2.2 segA (Or.inr (by norm_num [segA, tsMax, tsMin, max_def, min_def]))
  have hB_none : segmentEvent 7 4 segB = none :=
    hmain.2.2 segB (Or.inr (by norm_num [segB, tsMax, tsMin, max_def, min_def]))
  refine ⟨by norm_num, by norm_num, by simp [segA], by simp [segB], hbord, hmain.1,
    hmain.2.1, ?_⟩
  rw [hmain.2.1, hA_none, hB_none]
  rfl
